import Mathlib

/-!
Verification of the connection-lifecycle controller of `react-socket-hooks`.

The repository ships one source file, `src/socket-instance.js`, containing the
`useSocketInstance` hook, together with the test suite of the package entry
point `useSocket`.  The `useSocket` hook itself (the debounced connection
controller, the outbound queue and the inbound dispatch of the spec) is not in
the source tree; its behaviour is modelled here from the specification's
component design (spec §3, §4.1, §4.2) as an event-driven state machine, the
formulation the spec itself designates as the faithful substitute (spec §9).
`useSocketInstance` is embedded directly from the source.
-/

namespace SocketHooks

/-- Modelled from the spec: the state of a physical Connection
(`CONNECTING → OPEN → CLOSED`, spec §3).  The repository's `useSocket` hook
that observes it is absent from the source tree. -/
inductive ConnState
  | connecting
  | opened
  | closed
deriving DecidableEq, Repr

/-- Modelled from the spec: a Connection handle — an opaque transport
instance associated with exactly one target address at creation time
(spec §3).  `id` identifies the physical transport instance so that events
from a discarded transport can be told apart from the active one. -/
structure Conn where
  id : Nat
  addr : String
  state : ConnState
deriving DecidableEq, Repr

/-- Modelled from the spec: the Connection Controller state of the missing
`useSocket` hook (spec §4.1), together with observation logs.  `conn` is the
at-most-one active Connection, `pending` the armed debounce target
(Pending Switch, spec §3), `queue` the Outbound Queue of serialized messages
(spec §4.2).  `createdLog`, `closeLog` and `wire` record, in order, the
connections created, the transport `close()` calls issued, and the frames
transmitted (tagged with the transmitting connection's id). -/
structure Ctrl where
  conn : Option Conn
  pending : Option String
  queue : List String
  nextId : Nat
  disposed : Bool
  createdLog : List (Nat × String)
  closeLog : List Nat
  wire : List (Nat × String)
deriving DecidableEq, Repr

/-- Modelled from the spec: the Controller before any target was requested. -/
def initCtrl : Ctrl :=
  ⟨none, none, [], 0, false, [], [], []⟩

/-- Modelled from the spec: the externally observed Connection State —
"uninitialized" when no Connection exists, otherwise the active
Connection's state (spec §3, §4.1 `getState`). -/
inductive ObsState
  | uninitialized
  | connecting
  | opened
  | closed
deriving DecidableEq, Repr

/-- Modelled from the spec: `getState` of the Controller (spec §4.1). -/
def getState (s : Ctrl) : ObsState :=
  match s.conn with
  | none => .uninitialized
  | some c =>
    match c.state with
    | .connecting => .connecting
    | .opened => .opened
    | .closed => .closed

/-- Modelled from the spec: creating a new Connection for an address,
transitioning to CONNECTING (spec §4.1). -/
def createConn (s : Ctrl) (a : String) : Ctrl :=
  { s with
    conn := some ⟨s.nextId, a, .connecting⟩
    nextId := s.nextId + 1
    createdLog := s.createdLog ++ [(s.nextId, a)] }

/-- Modelled from the spec: closing the active Connection if any — the
Controller issues `close()` on the transport and disowns it (spec §4.1). -/
def closeConn (s : Ctrl) : Ctrl :=
  match s.conn with
  | none => s
  | some c => { s with conn := none, closeLog := s.closeLog ++ [c.id] }

/-- Modelled from the spec: `flushIfReady` of the Outbound Queue — when the
active Connection is OPEN, drain the queue head-to-tail onto the wire and
clear it; a drain, not a peek (spec §4.2). -/
def flushIfReady (s : Ctrl) : Ctrl :=
  match s.conn with
  | none => s
  | some c =>
    if c.state = .opened then
      { s with wire := s.wire ++ s.queue.map (fun m => (c.id, m)), queue := [] }
    else s

/-- Modelled from the spec: `setTarget` of the Controller (spec §4.1):
absent address closes any Connection and creates none; with no Connection a
new one is created; the same address is idempotent and cancels a pending
switch entirely; a different address (re)arms the debounce target. -/
def setTarget (s : Ctrl) (a : Option String) : Ctrl :=
  if s.disposed then s
  else
    match a with
    | none => closeConn { s with pending := none }
    | some addr =>
      match s.conn with
      | none => createConn s addr
      | some c =>
        if c.addr = addr then { s with pending := none }
        else { s with pending := some addr }

/-- Modelled from the spec: the debounce timer firing — the active Connection
is closed and a new Connection is created for the now-current target
(spec §4.1). -/
def timerFire (s : Ctrl) : Ctrl :=
  if s.disposed then s
  else
    match s.pending with
    | none => s
    | some addr => createConn (closeConn { s with pending := none }) addr

/-- Modelled from the spec: the transport signalling `open` for instance `i`;
only an event from the active Connection is honoured, the Connection becomes
OPEN and the Outbound Queue is flushed (spec §4.1, §4.2). -/
def transportOpen (s : Ctrl) (i : Nat) : Ctrl :=
  if s.disposed then s
  else
    match s.conn with
    | none => s
    | some c =>
      if c.id = i then
        flushIfReady { s with conn := some { c with state := .opened } }
      else s

/-- Modelled from the spec: the transport signalling `close` for instance `i`;
the observed state of the active Connection becomes CLOSED (spec §4.1
`getState`, §7). -/
def transportClose (s : Ctrl) (i : Nat) : Ctrl :=
  if s.disposed then s
  else
    match s.conn with
    | none => s
    | some c =>
      if c.id = i then { s with conn := some { c with state := .closed } }
      else s

/-- Modelled from the spec: `send` — the serialized message is handed to the
Outbound Queue, and the queue is drained at once if the active Connection is
already OPEN; never raises for a not-yet-open connection (spec §4.1, §4.2). -/
def sendMsg (s : Ctrl) (m : String) : Ctrl :=
  flushIfReady { s with queue := s.queue ++ [m] }

/-- Modelled from the spec: `dispose` — scoped teardown: closes the active
Connection if any, cancels any pending debounce timer, terminal for the
Controller instance (spec §4.1, §5). -/
def dispose (s : Ctrl) : Ctrl :=
  closeConn { s with pending := none, disposed := true }

/-- Modelled from the spec: the discrete inputs driving the Controller state
machine (spec §9): target changes, timer firing, transport open/close events,
message submission, and teardown. -/
inductive Event
  | setTargetEv (a : Option String)
  | timerFireEv
  | openEv (i : Nat)
  | closeEv (i : Nat)
  | sendEv (m : String)
  | disposeEv
deriving DecidableEq, Repr

/-- Modelled from the spec: one step of the Controller state machine. -/
def step (s : Ctrl) : Event → Ctrl
  | .setTargetEv a => setTarget s a
  | .timerFireEv => timerFire s
  | .openEv i => transportOpen s i
  | .closeEv i => transportClose s i
  | .sendEv m => sendMsg s m
  | .disposeEv => dispose s

/-- Modelled from the spec: running a sequence of events through the
Controller state machine. -/
def run (s : Ctrl) (evs : List Event) : Ctrl :=
  evs.foldl step s

/-! ### Embedding of `useSocketInstance` (src/socket-instance.js, lines 3–11)

The hook receives a mutable ref `socket`, a `url` that may be absent, and on
each effect run: if `url` is present it stores `new WebSocket(url)` into
`socket.current` and attaches `openHandler` as an `open` listener; the
returned cleanup closes `socket.current` if it is set.  The ref is shared
across effect runs and is never cleared. -/

/-- State visible to the `useSocketInstance` effect: the mutable ref
`socket.current` (a handle identified by its creation index), plus logs of
WebSocket constructions, `open`-listener registrations, and `close()`
calls, in program order. -/
structure HookState where
  current : Option Nat
  nextId : Nat
  createdLog : List (Nat × String)
  listenerLog : List Nat
  closeCalls : List Nat
deriving DecidableEq, Repr

/-- The hook state before any effect has run: `socket.current` unset. -/
def initHook : HookState :=
  ⟨none, 0, [], [], []⟩

/-- Embedding of the effect body of `useSocketInstance`
(src/socket-instance.js lines 5–8): `if (url) { socket.current = new
WebSocket(url); socket.current.addEventListener("open", openHandler); }`.
With an absent url nothing runs. -/
def effectBody (st : HookState) (url : Option String) : HookState :=
  match url with
  | none => st
  | some u =>
    { st with
      current := some st.nextId
      nextId := st.nextId + 1
      createdLog := st.createdLog ++ [(st.nextId, u)]
      listenerLog := st.listenerLog ++ [st.nextId] }

/-- Embedding of the cleanup returned by the effect (src/socket-instance.js
line 10): `() => socket.current && socket.current.close()`.  It reads the
ref at call time; the guard makes it a no-op when no handle was ever stored,
and it never clears the ref. -/
def cleanupRun (st : HookState) : HookState :=
  match st.current with
  | none => st
  | some h => { st with closeCalls := st.closeCalls ++ [h] }


/-! ### Basic lemmas about the Controller operations -/

/-- Closing the active Connection always leaves the Controller with none. -/
theorem closeConn_conn (s : Ctrl) : (closeConn s).conn = none := by
  rcases h : s.conn with _ | c <;> simp [closeConn, h]

/-- Flushing touches only the wire and the queue: the Connection is kept. -/
theorem flushIfReady_conn (s : Ctrl) : (flushIfReady s).conn = s.conn := by
  rcases h : s.conn with _ | c
  · simp [flushIfReady, h]
  · by_cases hst : c.state = .opened <;> simp [flushIfReady, h, hst]

/-- Flushing creates no Connection. -/
theorem flushIfReady_createdLog (s : Ctrl) :
    (flushIfReady s).createdLog = s.createdLog := by
  rcases h : s.conn with _ | c
  · simp [flushIfReady, h]
  · by_cases hst : c.state = .opened <;> simp [flushIfReady, h, hst]

/-- Flushing closes no Connection. -/
theorem flushIfReady_closeLog (s : Ctrl) :
    (flushIfReady s).closeLog = s.closeLog := by
  rcases h : s.conn with _ | c
  · simp [flushIfReady, h]
  · by_cases hst : c.state = .opened <;> simp [flushIfReady, h, hst]

/-- Flushing while the active Connection is not OPEN transmits nothing. -/
theorem flushIfReady_not_opened (s : Ctrl) (c : Conn) (hc : s.conn = some c)
    (hs : c.state ≠ .opened) : flushIfReady s = s := by
  simp [flushIfReady, hc, hs]

/-- Sending while the active Connection is not OPEN only appends to the
Outbound Queue. -/
theorem sendMsg_queues (s : Ctrl) (c : Conn) (m : String)
    (hc : s.conn = some c) (hs : c.state ≠ .opened) :
    sendMsg s m = { s with queue := s.queue ++ [m] } := by
  unfold sendMsg
  exact flushIfReady_not_opened _ c hc hs

/-- C7: calling `setTarget` with the address of the already-existing
Connection, with no pending switch armed, performs no action at all: the
Controller state is unchanged (so the Connection is neither closed nor
replaced, no timer is armed and no new Connection is created), and hence
`setTarget` is idempotent for the same address. -/
theorem setTarget_same_addr_idempotent (s : Ctrl) (c : Conn) (a : String)
    (hd : s.disposed = false) (hc : s.conn = some c) (ha : c.addr = a)
    (hp : s.pending = none) :
    setTarget s (some a) = s := by
  obtain ⟨conn, pending, queue, nid, disp, cl, col, w⟩ := s
  simp only at hd hc hp
  subst hd hc hp ha
  simp [setTarget]

/-- Witness for `setTarget_same_addr_idempotent` at the Controller that has
just created a Connection to "a". -/
theorem setTarget_same_addr_idempotent_witness :
    (setTarget initCtrl (some "a")).disposed = false ∧
    (setTarget initCtrl (some "a")).conn = some ⟨0, "a", .connecting⟩ ∧
    (Conn.mk 0 "a" .connecting).addr = "a" ∧
    (setTarget initCtrl (some "a")).pending = none ∧
    setTarget (setTarget initCtrl (some "a")) (some "a")
      = setTarget initCtrl (some "a") :=
  ⟨rfl, rfl, rfl, rfl,
    setTarget_same_addr_idempotent _ ⟨0, "a", .connecting⟩ "a" rfl rfl rfl rfl⟩

/-- C8: `dispose` closes the active Connection if one exists and cancels any
pending debounce timer, from every Controller state, and it is idempotent:
a second `dispose` changes nothing (in particular it never fails). -/
theorem dispose_teardown_idempotent (s : Ctrl) :
    (dispose s).conn = none ∧
    (dispose s).pending = none ∧
    (dispose s).disposed = true ∧
    (dispose s).closeLog
      = s.closeLog ++ (match s.conn with | none => [] | some c => [c.id]) ∧
    dispose (dispose s) = dispose s := by
  obtain ⟨conn, pending, queue, nid, disp, cl, col, w⟩ := s
  cases conn <;> simp [dispose, closeConn]

/-- Witness for `dispose_teardown_idempotent` at a Controller connected
to "a". -/
theorem dispose_teardown_idempotent_witness :
    (dispose (setTarget initCtrl (some "a"))).conn = none ∧
    (dispose (setTarget initCtrl (some "a"))).pending = none ∧
    (dispose (setTarget initCtrl (some "a"))).disposed = true ∧
    (dispose (setTarget initCtrl (some "a"))).closeLog
      = (setTarget initCtrl (some "a")).closeLog ++
        (match (setTarget initCtrl (some "a")).conn with
          | none => [] | some c => [c.id]) ∧
    dispose (dispose (setTarget initCtrl (some "a")))
      = dispose (setTarget initCtrl (some "a")) :=
  dispose_teardown_idempotent (setTarget initCtrl (some "a"))

/-- C9: after `dispose` is called while the Connection is CONNECTING, a late
`open` or `close` event from the discarded transport, or a late timer firing,
leaves the Controller exactly as `dispose` left it: the observable state
stays "uninitialized" and no timer is armed. -/
theorem dispose_discards_late_events (s : Ctrl) (c : Conn)
    (hd : s.disposed = false) (hc : s.conn = some c)
    (hs : c.state = .connecting) :
    step (dispose s) (.openEv c.id) = dispose s ∧
    step (dispose s) (.closeEv c.id) = dispose s ∧
    step (dispose s) .timerFireEv = dispose s ∧
    getState (dispose s) = .uninitialized ∧
    (dispose s).pending = none := by
  obtain ⟨conn, pending, queue, nid, disp, cl, col, w⟩ := s
  simp only at hd hc
  subst hd hc
  simp [step, dispose, closeConn, transportOpen, transportClose, timerFire,
    getState]

/-- Witness for `dispose_discards_late_events`: dispose while CONNECTING
to "a", then replay the discarded transport's events. -/
theorem dispose_discards_late_events_witness :
    (setTarget initCtrl (some "a")).disposed = false ∧
    (setTarget initCtrl (some "a")).conn = some ⟨0, "a", .connecting⟩ ∧
    (Conn.mk 0 "a" .connecting).state = .connecting ∧
    step (dispose (setTarget initCtrl (some "a"))) (.openEv 0)
      = dispose (setTarget initCtrl (some "a")) ∧
    getState (dispose (setTarget initCtrl (some "a"))) = .uninitialized :=
  ⟨rfl, rfl, rfl,
    (dispose_discards_late_events _ ⟨0, "a", .connecting⟩ rfl rfl rfl).1,
    (dispose_discards_late_events _ ⟨0, "a", .connecting⟩ rfl rfl rfl).2.2.2.1⟩

/-- C10: the cleanup returned by the `useSocketInstance` effect closes
whatever handle sits in `socket.current` at cleanup time and never clears
the ref; an effect run with an absent url creates no socket yet the cleanup
still closes the handle left over from a previous url; with no handle ever
stored the cleanup is a guarded no-op. -/
theorem cleanup_closes_current_ref (st : HookState) :
    effectBody st none = st ∧
    (cleanupRun st).current = st.current ∧
    (st.current = none → cleanupRun st = st) ∧
    (∀ h : Nat, st.current = some h →
      (cleanupRun st).closeCalls = st.closeCalls ++ [h]) ∧
    (∀ u : String,
      (effectBody (effectBody st (some u)) none).createdLog
          = st.createdLog ++ [(st.nextId, u)] ∧
      (cleanupRun (effectBody (effectBody st (some u)) none)).closeCalls
          = (effectBody st (some u)).closeCalls ++ [st.nextId]) := by
  obtain ⟨cur, nid, cl, ll, cc⟩ := st
  refine ⟨rfl, ?_, ?_, ?_, ?_⟩
  · cases cur <;> simp [cleanupRun]
  · cases cur <;> simp [cleanupRun]
  · intro h hh
    cases cur <;> simp_all [cleanupRun]
  · intro u
    simp [effectBody, cleanupRun]

/-- Witness for `cleanup_closes_current_ref`: after mounting with a url and
re-running with the url absent, the cleanup still closes the first handle. -/
theorem cleanup_closes_current_ref_witness :
    (cleanupRun (effectBody (effectBody initHook
        (some "wss://api.example.com/")) none)).closeCalls
      = (effectBody initHook (some "wss://api.example.com/")).closeCalls
        ++ [0] ∧
    (initHook.current = none → cleanupRun initHook = initHook) :=
  ⟨((cleanup_closes_current_ref initHook).2.2.2.2 "wss://api.example.com/").2,
    (cleanup_closes_current_ref initHook).2.2.1⟩

/-- Sends submitted while the active Connection is not yet OPEN only
accumulate in the Outbound Queue, in submission order. -/
theorem run_sendEvs (ms : List String) (s : Ctrl) (c : Conn)
    (hc : s.conn = some c) (hs : c.state ≠ .opened) :
    run s (ms.map .sendEv) = { s with queue := s.queue ++ ms } := by
  induction ms generalizing s with
  | nil => simp [run]
  | cons m rest ih =>
    have hstep : run s ((m :: rest).map .sendEv)
        = run (sendMsg s m) (rest.map .sendEv) := rfl
    rw [hstep, sendMsg_queues s c m hc hs,
      ih { s with queue := s.queue ++ [m] } hc]
    simp

/-- C1: for every sequence of `send` calls made while the Connection is
CONNECTING, nothing is transmitted before the `open` event, and on the
transition to OPEN every submitted message is transmitted exactly once, in
submission order, leaving the queue drained. -/
theorem queued_messages_flush_fifo (s : Ctrl) (c : Conn) (ms : List String)
    (hd : s.disposed = false) (hc : s.conn = some c)
    (hs : c.state = .connecting) (hq : s.queue = []) :
    (run s (ms.map .sendEv)).wire = s.wire ∧
    (run s (ms.map .sendEv ++ [.openEv c.id])).wire
        = s.wire ++ ms.map (fun m => (c.id, m)) ∧
    (run s (ms.map .sendEv ++ [.openEv c.id])).queue = [] := by
  have hne : c.state ≠ .opened := by rw [hs]; intro h; cases h
  have h1 := run_sendEvs ms s c hc hne
  have h2 : run s (ms.map .sendEv ++ [.openEv c.id])
      = transportOpen { s with queue := s.queue ++ ms } c.id := by
    rw [run, List.foldl_append, ← run, ← run, h1]; rfl
  refine ⟨by rw [h1], ?_, ?_⟩ <;>
  · rw [h2]
    simp [transportOpen, hd, hc, flushIfReady, hq]

/-- Witness for `queued_messages_flush_fifo`: two messages sent while
CONNECTING to "wss://api.example.com/" reach the wire once each, in order,
only after the `open` event. -/
theorem queued_messages_flush_fifo_witness :
    (setTarget initCtrl (some "wss://api.example.com/")).disposed = false ∧
    (setTarget initCtrl (some "wss://api.example.com/")).conn
      = some ⟨0, "wss://api.example.com/", .connecting⟩ ∧
    (Conn.mk 0 "wss://api.example.com/" .connecting).state = .connecting ∧
    (setTarget initCtrl (some "wss://api.example.com/")).queue = [] ∧
    (run (setTarget initCtrl (some "wss://api.example.com/"))
        (["m1", "m2"].map .sendEv ++ [.openEv 0])).wire
      = (setTarget initCtrl (some "wss://api.example.com/")).wire
        ++ ["m1", "m2"].map (fun m =>
            ((Conn.mk 0 "wss://api.example.com/" .connecting).id, m)) :=
  ⟨rfl, rfl, rfl, rfl,
    (queued_messages_flush_fifo _ ⟨0, "wss://api.example.com/", .connecting⟩
      ["m1", "m2"] rfl rfl rfl rfl).2.1⟩

/-- C3: address changes A→B→C within one debounce window while connected
to A: when the timer fires, exactly one new Connection is created, it
targets C, and the Connection to A is closed exactly once; the intermediate
address B never gets a Connection. -/
theorem debounce_collapse (s : Ctrl) (c : Conn) (a b d : String)
    (hd : s.disposed = false) (hc : s.conn = some c) (ha : c.addr = a)
    (hb : ¬ b = a) (hda : ¬ d = a) :
    (run s [.setTargetEv (some b), .setTargetEv (some d), .timerFireEv]).conn
        = some ⟨s.nextId, d, .connecting⟩ ∧
    (run s [.setTargetEv (some b), .setTargetEv (some d),
        .timerFireEv]).createdLog = s.createdLog ++ [(s.nextId, d)] ∧
    (run s [.setTargetEv (some b), .setTargetEv (some d),
        .timerFireEv]).closeLog = s.closeLog ++ [c.id] := by
  obtain ⟨conn, pending, queue, nid, disp, cl, col, w⟩ := s
  simp only at hd hc
  subst hd hc ha
  have hb' : ¬ c.addr = b := fun h => hb h.symm
  have hda' : ¬ c.addr = d := fun h => hda h.symm
  simp [run, step, setTarget, timerFire, createConn, closeConn, hb', hda']

/-- Witness for `debounce_collapse` with addresses "a", "b", "c". -/
theorem debounce_collapse_witness :
    (setTarget initCtrl (some "a")).disposed = false ∧
    (setTarget initCtrl (some "a")).conn = some ⟨0, "a", .connecting⟩ ∧
    (Conn.mk 0 "a" .connecting).addr = "a" ∧
    ¬ "b" = "a" ∧ ¬ "c" = "a" ∧
    (run (setTarget initCtrl (some "a")) [.setTargetEv (some "b"),
        .setTargetEv (some "c"), .timerFireEv]).createdLog
      = (setTarget initCtrl (some "a")).createdLog
        ++ [((setTarget initCtrl (some "a")).nextId, "c")] :=
  ⟨rfl, rfl, rfl, by decide, by decide,
    (debounce_collapse _ ⟨0, "a", .connecting⟩ "a" "b" "c" rfl rfl rfl
      (by decide) (by decide)).2.1⟩

/-- C4: address changes A→B→A within one debounce window while connected
to A: the pending switch is cancelled entirely — when the timer would have
fired nothing happens, no new Connection is created, nothing is closed, and
the original Connection is untouched. -/
theorem debounce_cancel_to_self (s : Ctrl) (c : Conn) (a b : String)
    (hd : s.disposed = false) (hc : s.conn = some c) (ha : c.addr = a)
    (hb : ¬ b = a) :
    run s [.setTargetEv (some b), .setTargetEv (some a), .timerFireEv]
      = { s with pending := none } := by
  obtain ⟨conn, pending, queue, nid, disp, cl, col, w⟩ := s
  simp only at hd hc
  subst hd hc ha
  have hb' : ¬ c.addr = b := fun h => hb h.symm
  simp [run, step, setTarget, timerFire, hb']

/-- Witness for `debounce_cancel_to_self` with addresses "a", "b". -/
theorem debounce_cancel_to_self_witness :
    (setTarget initCtrl (some "a")).disposed = false ∧
    (setTarget initCtrl (some "a")).conn = some ⟨0, "a", .connecting⟩ ∧
    (Conn.mk 0 "a" .connecting).addr = "a" ∧
    ¬ "b" = "a" ∧
    run (setTarget initCtrl (some "a"))
        [.setTargetEv (some "b"), .setTargetEv (some "a"), .timerFireEv]
      = { setTarget initCtrl (some "a") with pending := none } :=
  ⟨rfl, rfl, rfl, by decide,
    debounce_cancel_to_self _ ⟨0, "a", .connecting⟩ "a" "b" rfl rfl rfl
      (by decide)⟩

/-- C5: across a close-then-reopen cycle of the same Connection, the wire
grows by exactly the still-queued (never yet transmitted) messages — in
particular, with the queue drained, nothing previously transmitted is ever
transmitted again — and the Connection is observed OPEN after the reopen. -/
theorem no_resend_across_reopen (s : Ctrl) (c : Conn)
    (hd : s.disposed = false) (hc : s.conn = some c)
    (hs : c.state = .opened) :
    (run s [.closeEv c.id, .openEv c.id]).wire
        = s.wire ++ s.queue.map (fun m => (c.id, m)) ∧
    (run s [.closeEv c.id, .openEv c.id]).queue = [] ∧
    getState (run s [.closeEv c.id, .openEv c.id]) = .opened := by
  obtain ⟨conn, pending, queue, nid, disp, cl, col, w⟩ := s
  simp only at hd hc
  subst hd hc
  simp [run, step, transportClose, transportOpen, flushIfReady, getState]

/-- Witness for `no_resend_across_reopen`: a message flushed before the
close is not on the wire a second time after the reopen. -/
theorem no_resend_across_reopen_witness :
    (run (setTarget initCtrl (some "a")) [.sendEv "m1", .openEv 0]).disposed
      = false ∧
    (run (setTarget initCtrl (some "a")) [.sendEv "m1", .openEv 0]).conn
      = some ⟨0, "a", .opened⟩ ∧
    (Conn.mk 0 "a" .opened).state = .opened ∧
    (run (run (setTarget initCtrl (some "a")) [.sendEv "m1", .openEv 0])
        [.closeEv 0, .openEv 0]).wire
      = (run (setTarget initCtrl (some "a")) [.sendEv "m1", .openEv 0]).wire
        ++ (run (setTarget initCtrl (some "a"))
            [.sendEv "m1", .openEv 0]).queue.map (fun m => (0, m)) :=
  ⟨rfl, rfl, rfl,
    (no_resend_across_reopen _ ⟨0, "a", .opened⟩ rfl rfl rfl).1⟩

/-- C6: when the target address becomes absent, any existing Connection is
closed, no new Connection is created, the observed state becomes
"uninitialized", and subsequent sends queue without creating a Connection;
from a Controller with no Connection (address absent from the start),
nothing is ever created. -/
theorem absent_target_closes (s : Ctrl) (hd : s.disposed = false) :
    (setTarget s none).conn = none ∧
    getState (setTarget s none) = .uninitialized ∧
    (setTarget s none).createdLog = s.createdLog ∧
    (setTarget s none).closeLog
      = s.closeLog ++ (match s.conn with | none => [] | some c => [c.id]) ∧
    (∀ m : String,
      (sendMsg (setTarget s none) m).conn = none ∧
      (sendMsg (setTarget s none) m).createdLog = s.createdLog ∧
      (sendMsg (setTarget s none) m).queue = (setTarget s none).queue ++ [m]) := by
  obtain ⟨conn, pending, queue, nid, disp, cl, col, w⟩ := s
  simp only at hd
  subst hd
  cases conn <;>
    simp [setTarget, closeConn, getState, sendMsg, flushIfReady]

/-- Witness for `absent_target_closes`: dropping the address while connected
to "a" closes that Connection, creates none, and a later send only queues. -/
theorem absent_target_closes_witness :
    (setTarget initCtrl (some "a")).disposed = false ∧
    (setTarget (setTarget initCtrl (some "a")) none).conn = none ∧
    getState (setTarget (setTarget initCtrl (some "a")) none)
      = .uninitialized ∧
    (sendMsg (setTarget (setTarget initCtrl (some "a")) none) "m1").createdLog
      = (setTarget initCtrl (some "a")).createdLog :=
  ⟨rfl, (absent_target_closes _ rfl).1, (absent_target_closes _ rfl).2.1,
    ((absent_target_closes _ rfl).2.2.2.2 "m1").2.1⟩

/-! ### Single ownership of connections -/

/-- Every Connection ever created has either had `close()` issued on it or
is the (unique) currently owned Connection. -/
def OwnedInv (s : Ctrl) : Prop :=
  ∀ p ∈ s.createdLog, p.1 ∈ s.closeLog ∨ ∃ c, s.conn = some c ∧ c.id = p.1

/-- Closing the active Connection preserves the ownership invariant. -/
theorem ownedInv_closeConn (s : Ctrl) (h : OwnedInv s) :
    OwnedInv (closeConn s) := by
  intro p hp
  rcases hcs : s.conn with _ | c
  · simp only [closeConn, hcs] at hp ⊢
    rcases h p hp with h1 | ⟨c, hc, _⟩
    · exact Or.inl h1
    · rw [hcs] at hc; cases hc
  · simp only [closeConn, hcs] at hp ⊢
    rcases h p hp with h1 | ⟨c', hc', hid⟩
    · exact Or.inl (List.mem_append_left _ h1)
    · rw [hcs] at hc'
      injection hc' with hc'
      subst hc'
      exact Or.inl (List.mem_append_right _ (by simp [hid]))

/-- Creating a Connection when none is owned preserves the ownership
invariant: the new entry is the current Connection. -/
theorem ownedInv_createConn (s : Ctrl) (a : String) (hcs : s.conn = none)
    (h : OwnedInv s) : OwnedInv (createConn s a) := by
  intro p hp
  simp only [createConn, List.mem_append, List.mem_singleton] at hp ⊢
  rcases hp with hp | hp
  · rcases h p hp with h1 | ⟨c, hc, _⟩
    · exact Or.inl h1
    · rw [hcs] at hc; cases hc
  · subst hp
    exact Or.inr ⟨⟨s.nextId, a, .connecting⟩, rfl, rfl⟩

/-- Flushing preserves the ownership invariant (it touches only wire and
queue). -/
theorem ownedInv_flushIfReady (s : Ctrl) (h : OwnedInv s) :
    OwnedInv (flushIfReady s) := by
  intro p hp
  rw [flushIfReady_createdLog] at hp
  rw [flushIfReady_closeLog, flushIfReady_conn]
  exact h p hp

/-- Every single step of the Controller state machine preserves the
ownership invariant. -/
theorem ownedInv_step (s : Ctrl) (e : Event) (h : OwnedInv s) :
    OwnedInv (step s e) := by
  have hpend : ∀ (o : Option String), OwnedInv { s with pending := o } :=
    fun o => h
  cases e with
  | setTargetEv a =>
    show OwnedInv (setTarget s a)
    unfold setTarget
    by_cases hd : s.disposed = true
    · simpa [hd] using h
    · simp only [hd, if_false, Bool.not_eq_true] at *
      cases a with
      | none =>
        simp only
        exact ownedInv_closeConn _ (hpend none)
      | some addr =>
        rcases hcs : s.conn with _ | c
        · simpa [hd, hcs] using ownedInv_createConn s addr hcs h
        · by_cases hsame : c.addr = addr <;>
            simpa [hd, hcs, hsame] using hpend _
  | timerFireEv =>
    show OwnedInv (timerFire s)
    unfold timerFire
    by_cases hd : s.disposed = true
    · simpa [hd] using h
    · rcases hps : s.pending with _ | addr
      · simpa [hd, hps] using h
      · simp only [hd, hps, Bool.false_eq_true, if_false]
        exact ownedInv_createConn _ addr (closeConn_conn _)
          (ownedInv_closeConn _ (hpend none))
  | openEv i =>
    show OwnedInv (transportOpen s i)
    unfold transportOpen
    by_cases hd : s.disposed = true
    · simpa [hd] using h
    · rcases hcs : s.conn with _ | c
      · simpa [hd, hcs] using h
      · by_cases hid : c.id = i
        · subst hid
          simp only [hd, hcs, Bool.false_eq_true, if_false, if_true,
            eq_self_iff_true]
          refine ownedInv_flushIfReady _ ?_
          intro p hp
          rcases h p hp with h1 | ⟨c', hc', hcid⟩
          · exact Or.inl h1
          · rw [hcs] at hc'
            injection hc' with hc'
            subst hc'
            exact Or.inr ⟨{ c with state := .opened }, rfl, hcid⟩
        · simpa [hd, hcs, hid] using h
  | closeEv i =>
    show OwnedInv (transportClose s i)
    unfold transportClose
    by_cases hd : s.disposed = true
    · simpa [hd] using h
    · rcases hcs : s.conn with _ | c
      · simpa [hd, hcs] using h
      · by_cases hid : c.id = i
        · subst hid
          simp only [hd, hcs, Bool.false_eq_true, if_false, if_true,
            eq_self_iff_true]
          intro p hp
          rcases h p hp with h1 | ⟨c', hc', hcid⟩
          · exact Or.inl h1
          · rw [hcs] at hc'
            injection hc' with hc'
            subst hc'
            exact Or.inr ⟨{ c with state := .closed }, rfl, hcid⟩
        · simpa [hd, hcs, hid] using h
  | sendEv m =>
    show OwnedInv (sendMsg s m)
    exact ownedInv_flushIfReady _ h
  | disposeEv =>
    show OwnedInv (dispose s)
    exact ownedInv_closeConn _ h

/-- Runs of the Controller state machine preserve the ownership invariant. -/
theorem ownedInv_run (s : Ctrl) (evs : List Event) (h : OwnedInv s) :
    OwnedInv (run s evs) := by
  induction evs generalizing s with
  | nil => exact h
  | cons e l ih => exact ih (step s e) (ownedInv_step s e h)

/-- C2: at most one Connection is ever owned (the Controller's `conn` slot
holds at most one), and after any event sequence from the initial Controller,
every Connection that was ever created has either been closed or is the one
currently owned — a new Connection is never brought up while a prior one is
still alive without the prior one having been closed first. -/
theorem single_owned_connection (evs : List Event) (p : Nat × String)
    (hp : p ∈ (run initCtrl evs).createdLog) :
    p.1 ∈ (run initCtrl evs).closeLog ∨
      ∃ c, (run initCtrl evs).conn = some c ∧ c.id = p.1 :=
  ownedInv_run initCtrl evs (fun q hq => by simp [initCtrl] at hq) p hp

/-- Witness for `single_owned_connection`: after the debounced switch from
"a" to "c", the Connection to "a" has been closed and the one to "c" is the
single owned Connection. -/
theorem single_owned_connection_witness :
    ((0, "a") ∈ (run initCtrl [.setTargetEv (some "a"),
        .setTargetEv (some "b"), .setTargetEv (some "c"),
        .timerFireEv]).createdLog) ∧
    ((0, "a").1 ∈ (run initCtrl [.setTargetEv (some "a"),
        .setTargetEv (some "b"), .setTargetEv (some "c"),
        .timerFireEv]).closeLog ∨
      ∃ c, (run initCtrl [.setTargetEv (some "a"), .setTargetEv (some "b"),
          .setTargetEv (some "c"), .timerFireEv]).conn = some c ∧
        c.id = (0, "a").1) :=
  ⟨by decide,
    single_owned_connection [.setTargetEv (some "a"), .setTargetEv (some "b"),
      .setTargetEv (some "c"), .timerFireEv] (0, "a") (by decide)⟩

end SocketHooks
